import Mathlib

/-!
Verification of the Qiita metadata-template engine against its source.

The development shallowly embeds the parts of `qiita_db/metadata_template/`
(`base_metadata_template.py`, `prep_template.py`, `constants.py`) and
`qiita_ware/processing_pipeline.py` that the checked properties are about.
The relational store is embedded as an explicit `DB` state record; every SQL
statement of the source becomes a pure update or read of that record, and every
Python exception becomes an error value.  Helper functions that the source
imports from repository modules that are not part of the source tree
(`qiita_db/metadata_template/util.py`, `qiita_db/sql_connection.py`, the file
readers) are modelled from the specification and marked as such in their doc
comments.
-/

/-- Dynamic per-template table (`qiita.prep_<id>`): the list of its metadata
columns (besides the `sample_id` key column, which is represented by the key of
each row) and its rows, each pairing a sample id with the values of the columns
in column order. -/
structure DynTable where
  cols : List String
  rows : List (String × List String)
deriving DecidableEq

/-- The slice of the relational store that the embedded operations touch.
Tables are association lists; `commonPrepCols` is the schema-introspection
answer for `get_table_cols('common_prep_info')`, `ontologyTerms` the ENA
ontology term list read by `validate_investigation_type`, and `nextPrepId` the
value the `INSERT ... RETURNING prep_template_id` statement would hand back. -/
structure DB where
  prepTemplateIds : List Nat
  commonPrepInfo : List (Nat × String × List String)
  prepColumns : List (Nat × String × String)
  dynamicTables : List (String × DynTable)
  prepFilepaths : List (Nat × Nat)
  prepPreprocessedData : List (Nat × Nat)
  requiredSampleInfo : List (Nat × String)
  commonPrepCols : List String
  ontologyTerms : List String
  nextPrepId : Nat
deriving DecidableEq

/-- MetadataTemplate._table_name for the prep subclass: the dynamic table is
named by the `prep_` table name start followed by the decimal id. -/
def prepTableName (id : Nat) : String := "prep_" ++ toString id

/-- exists_table from `qiita_db/util.py`: whether the named table is present in
the information schema, i.e. among the dynamic tables of the store. -/
def exists_table (db : DB) (t : String) : Bool :=
  db.dynamicTables.any (fun p => p.1 = t)

/-- MetadataTemplate.exists for prep templates: true iff the dynamic table for
the id exists. -/
def PrepTemplate.existsId (db : DB) (id : Nat) : Bool :=
  exists_table db (prepTableName id)

/-- The metadata table handed to `PrepTemplate.create`: sample ids (the index),
column headers, and the row-major values (`data.length = index.length`, each
row as long as `columns`). -/
structure DataFrame where
  index : List String
  columns : List String
  data : List (List String)
deriving DecidableEq

/-- TARGET_GENE_DATA_TYPES from `metadata_template/constants.py`. -/
def TARGET_GENE_DATA_TYPES : List String := ["16S", "18S", "ITS"]

/-- REQUIRED_TARGET_GENE_COLS from `metadata_template/constants.py`. -/
def REQUIRED_TARGET_GENE_COLS : Finset String :=
  {"barcodesequence", "linkerprimersequence", "run_prefix",
   "library_construction_protocol", "experiment_design_description",
   "platform"}

/-- RENAME_COLS_DICT from `metadata_template/constants.py`. -/
def RENAME_COLS_DICT : List (String × String) :=
  [("barcode", "barcodesequence"), ("primer", "linkerprimersequence")]

/-- Application of a rename table to one column header (pandas
`DataFrame.rename(columns=...)` applied headerwise). -/
def renameCol (m : List (String × String)) (c : String) : String :=
  match m.lookup c with
  | some c2 => c2
  | none => c

/-- Modelled from the spec: `get_invalid_sample_names` is imported from
`qiita_db/metadata_template/util.py`, which is absent from src/.  The spec
rejects any sample id containing characters outside `[A-Za-z0-9.]`. -/
def validSampleIdChar (c : Char) : Bool :=
  c.isAlpha || c.isDigit || c = '.'

/-- Modelled from the spec: the invalid sample names of an index are those
containing a character outside `[A-Za-z0-9.]`. -/
def get_invalid_sample_names (ids : List String) : List String :=
  ids.filter (fun s => ¬ s.data.all validSampleIdChar)

/-- Modelled from the spec: `prefix_sample_names_with_id` is imported from
`qiita_db/metadata_template/util.py`, which is absent from src/.  The spec
prefixes every sample id with `"<study_id>."` if it is not already so
prefixed. -/
def prefixSampleName (studyId : Nat) (sid : String) : String :=
  if List.isPrefixOf (toString studyId ++ ".").data sid.data then sid
  else toString studyId ++ "." ++ sid

/-- PrepTemplate._check_template_special_columns: for target-gene data types
the rename table is applied to the headers first and the still-missing required
target-gene columns are computed; otherwise nothing is renamed and nothing is
missing. -/
def PrepTemplate.checkTemplateSpecialColumns (md : DataFrame)
    (data_type : String) : DataFrame × Finset String :=
  if data_type ∈ TARGET_GENE_DATA_TYPES then
    let md2 := { md with columns := md.columns.map (renameCol RENAME_COLS_DICT) }
    (md2, REQUIRED_TARGET_GENE_COLS.filter (fun c => c ∉ md2.columns))
  else (md, ∅)

/-- Modelled from the spec: `translate_cols_dict` is read by
`PrepTemplate.create` but defined nowhere under src/; the spec names no columns
exempted from the missing-column check, so the set is modelled as empty. -/
def PrepTemplate.translateColsDict : Finset String := ∅

/-- The required columns of `common_prep_info` as `create` computes them:
`get_table_cols` minus the `sample_id` and `prep_template_id` columns. -/
def dbRequiredCols (db : DB) : List String :=
  (db.commonPrepCols.erase "sample_id").erase "prep_template_id"

/-- Errors raised by `PrepTemplate.create`, mirroring the exception classes of
`qiita_db/exceptions.py` with the payloads the messages carry. -/
inductive CreateError where
  | invalidInvestigationType (t : String)
  | invalidSampleIds (ids : List String)
  | duplicateHeader
  | missingColumns (cols : Finset String)
  | orphanSamples (ids : Finset String)
  | dbError (e : String)
deriving DecidableEq

/-- Result of `PrepTemplate.create`: either the committed store together with
the new prep template id, or the raised error together with the store as it
stands when the exception leaves the function. -/
inductive CreateResult where
  | ok (db : DB) (prepId : Nat)
  | err (e : CreateError) (db : DB)
deriving DecidableEq

/-- Python's `str.lower()`, characterwise over the character list. -/
def lowerStr (s : String) : String := ⟨s.data.map Char.toLower⟩

/-- Normalization stage of `PrepTemplate.create`: sample ids are prefixed with
the study id and the column headers are lowercased. -/
def PrepTemplate.mdNormalized (md0 : DataFrame) (studyId : Nat) : DataFrame :=
  let md1 := { md0 with index := md0.index.map (prefixSampleName studyId) }
  { md1 with columns := md1.columns.map lowerStr }

/-- The metadata table after normalization and the special-column renaming. -/
def PrepTemplate.mdChecked (md0 : DataFrame) (studyId : Nat)
    (dataTypeStr : String) : DataFrame :=
  (PrepTemplate.checkTemplateSpecialColumns
    (PrepTemplate.mdNormalized md0 studyId) dataTypeStr).1

/-- The missing-column set `create` tests: the special target-gene columns
still missing after renaming, together with the required `common_prep_info`
columns absent from the headers, minus the translate set. -/
def PrepTemplate.missingSet (db : DB) (md0 : DataFrame) (studyId : Nat)
    (dataTypeStr : String) : Finset String :=
  let md2 := PrepTemplate.mdNormalized md0 studyId
  let p := PrepTemplate.checkTemplateSpecialColumns md2 dataTypeStr
  let remaining : Finset String :=
    (dbRequiredCols db).toFinset.filter (fun c => c ∉ p.1.columns)
  (p.2 ∪ remaining).filter (fun c => c ∉ PrepTemplate.translateColsDict)

/-- Cell access of a row of a `DataFrame` by column name: the value at the
position of the column among the headers. -/
def DataFrame.cell (md : DataFrame) (row : List String) (c : String) : String :=
  (row.get? (md.columns.indexOf c)).getD ""

/-- Sample ids already registered for a study in `required_sample_info` (the
rollback diagnostic re-query of `create`). -/
def studySampleIds (db : DB) (studyId : Nat) : Finset String :=
  ((db.requiredSampleInfo.filter (fun p => p.1 = studyId)).map Prod.snd).toFinset

/-- Sample ids of the new template that the rollback diagnostic finds absent
from the owning study's registered samples. -/
def PrepTemplate.unknownSamples (db : DB) (md0 : DataFrame) (studyId : Nat)
    (dataTypeStr : String) : Finset String :=
  ((PrepTemplate.mdChecked md0 studyId dataTypeStr).index.toFinset).filter
    (fun s => s ∉ studySampleIds db studyId)

/-- The statements queued by `create` once applied as a unit: the
`common_prep_info` row per sample (required-column values), the
`prep_columns` registry row per dynamic column, and the freshly created
dynamic table with one row per sample.  Column types are all recorded as
`varchar`; the type inference (`get_datatypes`) is absent from src/ and no
checked property depends on the inferred types. -/
def PrepTemplate.createCommit (db1 : DB) (md3 : DataFrame) (prep_id : Nat) : DB :=
  let db_cols := dbRequiredCols db1
  let dynHeaders := md3.columns.filter (fun c => c ∉ db_cols)
  let rowsZ := md3.index.zip md3.data
  let newCommon := rowsZ.map
    (fun r => (prep_id, r.1, db_cols.map (fun c => DataFrame.cell md3 r.2 c)))
  let newPrepColumns := dynHeaders.map (fun c => (prep_id, c, "varchar"))
  let dynRows := rowsZ.map
    (fun r => (r.1, dynHeaders.map (fun c => DataFrame.cell md3 r.2 c)))
  { db1 with
      commonPrepInfo := db1.commonPrepInfo ++ newCommon,
      prepColumns := db1.prepColumns ++ newPrepColumns,
      dynamicTables := db1.dynamicTables ++ [(prepTableName prep_id, ⟨dynHeaders, dynRows⟩)] }

/-- The store right after `create` has inserted the root `prep_template` row
(the statement executed outside the queue): the fresh id is registered and the
id counter advanced. -/
def PrepTemplate.dbWithRootRow (db : DB) : DB :=
  { db with
      prepTemplateIds := db.prepTemplateIds ++ [db.nextPrepId],
      nextPrepId := db.nextPrepId + 1 }

/-- The store after the compensating `DELETE FROM qiita.prep_template` that
`create` runs when the queue execution fails: the freshly inserted root row is
removed again. -/
def PrepTemplate.dbCompensated (db : DB) : DB :=
  { PrepTemplate.dbWithRootRow db with
      prepTemplateIds :=
        (PrepTemplate.dbWithRootRow db).prepTemplateIds.filter
          (fun i => i ≠ db.nextPrepId) }

/-- Stages of `PrepTemplate.create` after the investigation-type validation:
sample-id validation, normalization, duplicate-header check, special-column
check, missing-column check, insertion of the root `prep_template` row outside
the queue, then the atomic execution of the queued statements; on queue
failure the root row is deleted as compensation and the rollback diagnostic
decides which error leaves the function. -/
def PrepTemplate.createValidated (db : DB) (md0 : DataFrame) (studyId : Nat)
    (dataTypeStr : String) (queueFailure : Option String) : CreateResult :=
  if get_invalid_sample_names md0.index ≠ [] then
    .err (.invalidSampleIds (get_invalid_sample_names md0.index)) db
  else if (PrepTemplate.mdNormalized md0 studyId).columns.dedup.length ≠
      (PrepTemplate.mdNormalized md0 studyId).columns.length then
    .err .duplicateHeader db
  else if PrepTemplate.missingSet db md0 studyId dataTypeStr ≠ ∅ then
    .err (.missingColumns (PrepTemplate.missingSet db md0 studyId dataTypeStr)) db
  else
    match queueFailure with
    | none =>
      .ok (PrepTemplate.createCommit (PrepTemplate.dbWithRootRow db)
        (PrepTemplate.mdChecked md0 studyId dataTypeStr) db.nextPrepId)
        db.nextPrepId
    | some e =>
      if PrepTemplate.unknownSamples (PrepTemplate.dbCompensated db) md0 studyId
          dataTypeStr ≠ ∅ then
        .err (.orphanSamples (PrepTemplate.unknownSamples
          (PrepTemplate.dbCompensated db) md0 studyId dataTypeStr))
          (PrepTemplate.dbCompensated db)
      else .err (.dbError e) (PrepTemplate.dbCompensated db)

/-- PrepTemplate.create (`prep_template.py`, lines 95-269): investigation-type
validation followed by the validated stages.  The opaque transactional
executor's outcome is the `queueFailure` argument (`none` means the queue
commits; `some e` means it fails with the store error `e`).  The post-commit
file side effects (backup snapshot, filepath link, QIIME mapping file) are
embedded separately. -/
def PrepTemplate.create (db : DB) (md0 : DataFrame) (studyId : Nat)
    (dataTypeStr : String) (investigationType : Option String)
    (queueFailure : Option String) : CreateResult :=
  match investigationType with
  | some it =>
    if it ∈ db.ontologyTerms then
      PrepTemplate.createValidated db md0 studyId dataTypeStr queueFailure
    else .err (.invalidInvestigationType it) db
  | none => PrepTemplate.createValidated db md0 studyId dataTypeStr queueFailure

/-- The removal statements `delete` executes, named after the tables they
clear. -/
inductive DeleteStep where
  | filepathLinks
  | dropDynamicTable
  | requiredColumnRows
  | columnRegistryRows
  | rootRow
deriving DecidableEq

/-- The statement sequence of PrepTemplate.delete (`prep_template.py`, lines
373-397): the `prep_template_filepath` rows, the dynamic `prep_X` table, the
`common_prep_info` rows, the `prep_columns` rows, and the `prep_template` root
row, in source order. -/
def prepDeleteStatements : List DeleteStep :=
  [.filepathLinks, .dropDynamicTable, .requiredColumnRows, .columnRegistryRows]
    ++ [.rootRow]

/-- The statement sequence of the base MetadataTemplate.delete
(`base_metadata_template.py`, lines 435-451): the template filepath rows, the
dynamic table, the shared required-column rows, and the column-registry rows,
in source order. -/
def metadataDeleteStatements : List DeleteStep :=
  [.filepathLinks, .dropDynamicTable, .requiredColumnRows, .columnRegistryRows]

/-- The order the specification asserts for `delete(id)`: the dynamic table,
the column-registry rows, the required-column rows, and the filepath links.
This definition follows the specification's words; it exists to be compared
with the statement sequences read off the source. -/
def specClaimedDeleteOrder : List DeleteStep :=
  [.dropDynamicTable, .columnRegistryRows, .requiredColumnRows, .filepathLinks]

/-- Effect of one removal statement of `delete` on the store (for prep
templates). -/
def applyDeleteStep (id : Nat) (db : DB) : DeleteStep → DB
  | .filepathLinks =>
    { db with prepFilepaths := db.prepFilepaths.filter (fun p => p.1 ≠ id) }
  | .dropDynamicTable =>
    { db with dynamicTables :=
        db.dynamicTables.filter (fun p => p.1 ≠ prepTableName id) }
  | .requiredColumnRows =>
    { db with commonPrepInfo := db.commonPrepInfo.filter (fun r => r.1 ≠ id) }
  | .columnRegistryRows =>
    { db with prepColumns := db.prepColumns.filter (fun r => r.1 ≠ id) }
  | .rootRow =>
    { db with prepTemplateIds := db.prepTemplateIds.filter (fun i => i ≠ id) }

/-- Errors raised by `PrepTemplate.delete`. -/
inductive DeleteError where
  | unknownID (id : Nat)
  | executionError (id : Nat)
deriving DecidableEq

/-- PrepTemplate.delete (`prep_template.py`, lines 342-397): raise
`QiitaDBUnknownIDError` when the dynamic table does not exist, raise
`QiitaDBExecutionError` when a preprocessed data is linked to the template,
otherwise execute the removal statements in source order.  The pair returned
is the raised error (if any) together with the resulting store; both checks
run before any removal statement, so on error the store is unchanged. -/
def PrepTemplate.delete (db : DB) (id : Nat) : Option DeleteError × DB :=
  if ¬ PrepTemplate.existsId db id then (some (.unknownID id), db)
  else if db.prepPreprocessedData.any (fun p => p.1 = id) then
    (some (.executionError id), db)
  else (none, prepDeleteStatements.foldl (applyDeleteStep id) db)

/-- State of one preprocessing run as the Job-Graph Executor sees it: the
owning raw data's preprocessing status, the nodes (name and `requires_deps`
flag) and edges of the job graph, and the working directories scheduled for
removal. -/
structure PipelineState where
  preprocessingStatus : String
  jobNodes : List (String × Bool)
  jobEdges : List (String × String)
  dirpathsToRemove : List String
deriving DecidableEq

/-- The error raised by `_construct_job_graph` for an unsupported raw-data
filetype (`NotImplementedError`). -/
inductive PipelineError where
  | notImplemented (rawDataId : Nat) (filetype : String)
deriving DecidableEq

/-- StudyPreprocessor._construct_job_graph (`processing_pipeline.py`, lines
320-380): the raw data's preprocessing status is set to `preprocessing` (a
transactional write executing immediately), then the filetype is dispatched;
for FASTQ and FASTA the three nodes and two edges are added and the command's
output directory is scheduled for removal, for any other filetype
`NotImplementedError` is raised.  The external command construction is
abstracted to the `outputDir` argument (the directory `mkdtemp` would create);
both supported branches register the same graph shape.  The pair returned is
the raised error (if any) together with the state when the call leaves. -/
def StudyPreprocessor.constructJobGraph (st : PipelineState) (rawDataId : Nat)
    (filetype : String) (outputDir : String) :
    Option PipelineError × PipelineState :=
  let st1 := { st with preprocessingStatus := "preprocessing" }
  if filetype = "FASTQ" ∨ filetype = "FASTA" then
    (none, { st1 with
      jobNodes := st1.jobNodes ++
        [("PREPROCESS", false), ("GEN_DEMUX_FILE", false),
         ("INSERT_PREPROCESSED", false)],
      jobEdges := st1.jobEdges ++
        [("PREPROCESS", "GEN_DEMUX_FILE"),
         ("GEN_DEMUX_FILE", "INSERT_PREPROCESSED")],
      dirpathsToRemove := st1.dirpathsToRemove ++ [outputDir] })
  else (some (.notImplemented rawDataId filetype), st1)

/-- The error raised by `create_qiime_mapping_file` when the prep template is
not a subset of the sample template (`ValueError` naming the offending ids). -/
inductive MappingError where
  | notASubset (ids : Finset String)
deriving DecidableEq

/-- Column reordering of `create_qiime_mapping_file` after the renames:
BarcodeSequence and LinkerPrimerSequence first, Description last, the
remaining columns in between in their original order. -/
def qiimeMappingCols (cols : List String) : List String :=
  let rest := ((cols.erase "BarcodeSequence").erase "LinkerPrimerSequence").erase
    "Description"
  "BarcodeSequence" :: "LinkerPrimerSequence" :: (rest ++ ["Description"])

/-- PrepTemplate.create_qiime_mapping_file (`prep_template.py`, lines
525-594): the committed prep template and the owning study's sample template
are re-read from their backup files and their sample-name sets compared; if
the prep names are not a subset of the sample-template names, `ValueError`
naming exactly the difference is raised before the mapping file is written or
linked; otherwise the mapping file is written and linked via `add_filepath`.
The file loading (`load_template_to_dataframe`, absent from src/) is
abstracted to the two sample-name sets read from the files, and the successful
link registration to appending the new filepath id. -/
def PrepTemplate.create_qiime_mapping_file (db : DB) (prepId : Nat)
    (ptNames stNames : Finset String) (newFpId : Nat) :
    Option MappingError × DB :=
  if ¬ ptNames ⊆ stNames then (some (.notASubset (ptNames \ stNames)), db)
  else (none, { db with prepFilepaths := db.prepFilepaths ++ [(prepId, newFpId)] })

/-- MetadataTemplate._get_sample_ids for a prep template: the sample ids of
its `common_prep_info` rows. -/
def MetadataTemplate.sampleIds (db : DB) (id : Nat) : Finset String :=
  ((db.commonPrepInfo.filter (fun r => r.1 = id)).map (fun r => r.2.1)).toFinset

/-- MetadataTemplate.__contains__: whether the sample id is present in the
template. -/
def MetadataTemplate.containsSample (db : DB) (id : Nat) (key : String) : Bool :=
  decide (key ∈ MetadataTemplate.sampleIds db id)

/-- The sample object `MetadataTemplate.__getitem__` returns: the sample id
together with the template it belongs to. -/
structure SampleObj where
  sampleId : String
  templateId : Nat
deriving DecidableEq

/-- The `KeyError` the mapping-style accessors raise. -/
inductive GetItemError where
  | keyError (key : String)
deriving DecidableEq

/-- MetadataTemplate.__getitem__ (`base_metadata_template.py`, lines 500-526):
the sample object when the sample id is contained in the template, otherwise a
`KeyError`. -/
def MetadataTemplate.getitem (db : DB) (id : Nat) (key : String) :
    Except GetItemError SampleObj :=
  if MetadataTemplate.containsSample db id key then .ok ⟨key, id⟩
  else .error (.keyError key)

/-- MetadataTemplate.get (`base_metadata_template.py`, lines 620-642):
`__getitem__` with the `KeyError` caught and turned into `None`. -/
def MetadataTemplate.get (db : DB) (id : Nat) (key : String) : Option SampleObj :=
  match MetadataTemplate.getitem db id key with
  | .ok s => some s
  | .error _ => none

/-- BaseSample._get_categories: the columns of the template's dynamic table
(the embedding keeps the `sample_id` key column outside `cols`, mirroring the
source's removal of `sample_id` from the column list). -/
def BaseSample.categories (db : DB) (templateId : Nat) : List String :=
  match db.dynamicTables.lookup (prepTableName templateId) with
  | some t => t.cols
  | none => []

/-- BaseSample.__contains__: the lowercased category is among the available
categories. -/
def BaseSample.containsCategory (db : DB) (templateId : Nat) (key : String) :
    Bool :=
  decide ((lowerStr key) ∈ BaseSample.categories db templateId)

/-- The stored value of one cell of a dynamic table: the value of the row of
the sample at the position of the column. -/
def dynTableCell (db : DB) (templateId : Nat) (sid : String) (k : String) :
    String :=
  match db.dynamicTables.lookup (prepTableName templateId) with
  | some t =>
    match t.rows.lookup sid with
    | some vals => (vals.get? (t.cols.indexOf k)).getD ""
    | none => ""
  | none => ""

/-- BaseSample.__getitem__ (`base_metadata_template.py`, lines 194-225): the
key is lowercased; if it is not among the sample's categories a `KeyError` is
raised, otherwise the stored value is selected from the dynamic table. -/
def BaseSample.getitem (db : DB) (templateId : Nat) (sid : String)
    (key : String) : Except GetItemError String :=
  if (lowerStr key) ∈ BaseSample.categories db templateId then
    .ok (dynTableCell db templateId sid (lowerStr key))
  else .error (.keyError key)

/-- BaseSample.get (`base_metadata_template.py`, lines 316-338):
`__getitem__` with the `KeyError` caught and turned into `None`. -/
def BaseSample.get (db : DB) (templateId : Nat) (sid : String) (key : String) :
    Option String :=
  match BaseSample.getitem db templateId sid key with
  | .ok v => some v
  | .error _ => none

/-- Splitting a character list at every occurrence of a separator; the result
has one chunk more than there are separator occurrences. -/
def splitOnSep (sep : Char) : List Char → List (List Char)
  | [] => [[]]
  | c :: rest =>
    match splitOnSep sep rest with
    | [] => [[]]
    | g :: gs => if c = sep then [] :: g :: gs else (c :: g) :: gs

/-- Interleaving a separator between chunks (the `'\t'.join` of the source's
line formatting). -/
def joinSep (sep : Char) : List (List Char) → List Char
  | [] => []
  | [l] => l
  | l :: l2 :: ls => l ++ sep :: joinSep sep (l2 :: ls)

/-- A file whose every line is terminated by a newline, as the source's
repeated `f.write("...\n")` produces. -/
def fileChars (lls : List (List Char)) : List Char :=
  lls.foldr (fun l acc => l ++ '\n' :: acc) []

/-- Lexicographic strict comparison of character lists by code point, the
order `sorted` uses on strings. -/
def strLtB : List Char → List Char → Bool
  | [], [] => false
  | [], _ :: _ => true
  | _ :: _, [] => false
  | a :: as, b :: bs => if a = b then strLtB as bs else decide (a.val < b.val)

/-- The non-strict string comparison used as the sort key. -/
def strLe (a b : String) : Prop := strLtB b.data a.data = false

instance : DecidableRel strLe := by
  unfold strLe
  infer_instance

/-- The lines MetadataTemplate.to_file writes for a dynamic table
(`base_metadata_template.py`, lines 667-698, with `samples=None`): a header
line holding `sample_name` and the sorted metadata categories, then one line
per sample in sample-id order holding the sample id and the values of the
sorted categories.  The source reads the categories off the first sample's
row dictionary; every row of one table has the same categories, namely the
table's columns. -/
def MetadataTemplate.toFileLines (t : DynTable) : List (List String) :=
  ("sample_name" :: t.cols.insertionSort strLe) ::
    (t.rows.insertionSort (fun a b => strLe a.1 b.1)).map (fun r =>
      r.1 :: (t.cols.insertionSort strLe).map
        (fun h => (r.2.get? (t.cols.indexOf h)).getD ""))

/-- MetadataTemplate.to_file: the tab-delimited, newline-terminated rendering
of the lines. -/
def MetadataTemplate.to_file (t : DynTable) : String :=
  ⟨fileChars ((MetadataTemplate.toFileLines t).map
    (fun fs => joinSep '\t' (fs.map String.data)))⟩

/-- Modelled from the spec: re-parsing the tab-delimited backup file (the
reader `load_template_to_dataframe` is absent from src/).  The file is split
into its newline-terminated lines and each line into its tab-separated
fields; the first line carries the headers, every further line a sample id
followed by the values. -/
def parseTemplateFile (s : String) : List (List String) :=
  ((splitOnSep '\n' s.data).dropLast).map
    (fun l => (splitOnSep '\t' l).map String.mk)

/-- The sample ids a parsed template file holds: the first field of every
non-header line. -/
def parsedSampleIds (p : List (List String)) : Finset String :=
  (p.tail.map (fun l => l.headD "")).toFinset

/-- The value a parsed template file holds for one (sample, column) pair:
looked up in the row whose first field is the sample id, at the position of
the column among the headers. -/
def parsedValue (p : List (List String)) (sid col : String) : Option String :=
  (p.tail.find? (fun l => decide (l.headD "" = sid))).bind (fun l =>
    if col ∈ (p.headD []).tail then l.tail.get? ((p.headD []).tail.indexOf col)
    else none)

/-- The value a dynamic table stores for one (sample, column) pair. -/
def DynTable.cellValue (t : DynTable) (sid col : String) : Option String :=
  match t.rows.lookup sid with
  | some vals => vals.get? (t.cols.indexOf col)
  | none => none

/-- A string free of the tab and newline separator characters. -/
def sepFree (s : String) : Prop := '\t' ∉ s.data ∧ '\n' ∉ s.data

instance (s : String) : Decidable (sepFree s) := by
  unfold sepFree
  infer_instance

/-! Helper lemmas shared by the theorems below. -/

/-- Filtering away a key leaves no entry with that key behind. -/
theorem any_filter_fst_ne {α : Type} [DecidableEq α] {β : Type}
    (l : List (α × β)) (n : α) :
    ((l.filter (fun p => p.1 ≠ n)).any (fun p => p.1 = n)) = false := by
  rw [Bool.eq_false_iff]
  intro h
  rcases List.any_eq_true.mp h with ⟨p, hp, he⟩
  rcases List.mem_filter.mp hp with ⟨-, hne⟩
  simp only [decide_eq_true_eq] at he
  simp [he] at hne

/-- Appending one fresh element and filtering it away restores the list. -/
theorem filter_append_singleton_ne {α : Type} [DecidableEq α]
    (l : List α) (a : α) (h : a ∉ l) :
    (l ++ [a]).filter (fun i => i ≠ a) = l := by
  rw [List.filter_append]
  have h1 : [a].filter (fun i => i ≠ a) = [] := by simp
  have h2 : l.filter (fun i => i ≠ a) = l := by
    apply List.filter_eq_self.mpr
    intro b hb
    simp only [ne_eq, decide_eq_true_eq, decide_not]
    simp only [Bool.not_eq_true', decide_eq_false_iff_not]
    intro hba
    exact h (hba ▸ hb)
  rw [h1, h2, List.append_nil]

/-- C4: for every prep template id whose dynamic table exists and that has at
least one preprocessed-data record linked to it, `PrepTemplate.delete` fails
with the `QiitaDBExecutionError` and returns the store unchanged, so the
dynamic table, the `common_prep_info` rows, the `prep_columns` rows, the
filepath links and the `prep_template` root row all survive the failed call. -/
theorem prep_delete_blocked_by_preprocessed_data (db : DB) (id : Nat)
    (hex : PrepTemplate.existsId db id = true)
    (hpp : ∃ fp, (id, fp) ∈ db.prepPreprocessedData) :
    PrepTemplate.delete db id = (some (.executionError id), db) := by
  rcases hpp with ⟨fp, hin⟩
  have hany : db.prepPreprocessedData.any (fun p => p.1 = id) = true := by
    refine List.any_eq_true.mpr ⟨(id, fp), hin, ?_⟩
    simp
  unfold PrepTemplate.delete
  rw [hex]
  simp [hany]

/-- C4 witness: a store with prep template 1 present and a preprocessed data
record linked to it; `delete 1` raises and the store is returned unchanged. -/
theorem prep_delete_blocked_by_preprocessed_data_witness :
    PrepTemplate.existsId
        ⟨[1], [(1, "5.S", ["c"])], [(1, "custom", "varchar")],
         [("prep_1", ⟨["custom"], [("5.S", ["v"])]⟩)], [(1, 10)], [(1, 7)],
         [(5, "5.S")], ["sample_id", "prep_template_id", "center_name"],
         ["Metagenomics"], 2⟩ 1 = true ∧
    PrepTemplate.delete
        ⟨[1], [(1, "5.S", ["c"])], [(1, "custom", "varchar")],
         [("prep_1", ⟨["custom"], [("5.S", ["v"])]⟩)], [(1, 10)], [(1, 7)],
         [(5, "5.S")], ["sample_id", "prep_template_id", "center_name"],
         ["Metagenomics"], 2⟩ 1 =
      (some (.executionError 1),
       ⟨[1], [(1, "5.S", ["c"])], [(1, "custom", "varchar")],
        [("prep_1", ⟨["custom"], [("5.S", ["v"])]⟩)], [(1, 10)], [(1, 7)],
        [(5, "5.S")], ["sample_id", "prep_template_id", "center_name"],
        ["Metagenomics"], 2⟩) :=
  ⟨by decide, prep_delete_blocked_by_preprocessed_data _ 1 (by decide) ⟨7, by decide⟩⟩

/-- The store a successful `delete` leaves: every one of the five removal
statements applied. -/
theorem delete_foldl_eq (db : DB) (id : Nat) :
    prepDeleteStatements.foldl (applyDeleteStep id) db =
      { db with
          prepFilepaths := db.prepFilepaths.filter (fun p => p.1 ≠ id),
          dynamicTables :=
            db.dynamicTables.filter (fun p => p.1 ≠ prepTableName id),
          commonPrepInfo := db.commonPrepInfo.filter (fun r => r.1 ≠ id),
          prepColumns := db.prepColumns.filter (fun r => r.1 ≠ id),
          prepTemplateIds := db.prepTemplateIds.filter (fun i => i ≠ id) } := by
  rfl

/-- C9: for every store and template id, a successful `delete` makes
`exists(id)` false, and the immediately following `delete` of the same id
fails with the `QiitaDBUnknownIDError` and performs no removal (the store is
returned unchanged). -/
theorem prep_delete_twice_unknown (db db' : DB) (id : Nat)
    (h : PrepTemplate.delete db id = (none, db')) :
    PrepTemplate.existsId db' id = false ∧
      PrepTemplate.delete db' id = (some (.unknownID id), db') := by
  have hdb' : db' = prepDeleteStatements.foldl (applyDeleteStep id) db := by
    by_cases hex : PrepTemplate.existsId db id = true
    · by_cases hpp : db.prepPreprocessedData.any (fun p => p.1 = id) = true
      · exfalso
        unfold PrepTemplate.delete at h
        rw [hex] at h
        simp [hpp] at h
      · unfold PrepTemplate.delete at h
        rw [hex] at h
        simp only [Bool.not_eq_true] at hpp
        simp [hpp] at h
        exact h.symm
    · exfalso
      unfold PrepTemplate.delete at h
      simp only [Bool.not_eq_true] at hex
      rw [hex] at h
      simp at h
  have hexf : PrepTemplate.existsId db' id = false := by
    rw [hdb', delete_foldl_eq]
    unfold PrepTemplate.existsId exists_table
    exact any_filter_fst_ne _ _
  refine ⟨hexf, ?_⟩
  unfold PrepTemplate.delete
  rw [hexf]
  simp

/-- C9 witness: deleting prep template 1 from a concrete store succeeds;
afterwards `exists 1` is false and the second delete raises
`QiitaDBUnknownIDError`. -/
theorem prep_delete_twice_unknown_witness :
    PrepTemplate.existsId
        (PrepTemplate.delete
          ⟨[1], [(1, "5.S", ["c"])], [(1, "custom", "varchar")],
           [("prep_1", ⟨["custom"], [("5.S", ["v"])]⟩)], [(1, 10)], [],
           [(5, "5.S")], ["sample_id", "prep_template_id", "center_name"],
           ["Metagenomics"], 2⟩ 1).2 1 = false ∧
    PrepTemplate.delete
        (PrepTemplate.delete
          ⟨[1], [(1, "5.S", ["c"])], [(1, "custom", "varchar")],
           [("prep_1", ⟨["custom"], [("5.S", ["v"])]⟩)], [(1, 10)], [],
           [(5, "5.S")], ["sample_id", "prep_template_id", "center_name"],
           ["Metagenomics"], 2⟩ 1).2 1 =
      (some (.unknownID 1),
       (PrepTemplate.delete
          ⟨[1], [(1, "5.S", ["c"])], [(1, "custom", "varchar")],
           [("prep_1", ⟨["custom"], [("5.S", ["v"])]⟩)], [(1, 10)], [],
           [(5, "5.S")], ["sample_id", "prep_template_id", "center_name"],
           ["Metagenomics"], 2⟩ 1).2) :=
  prep_delete_twice_unknown
    ⟨[1], [(1, "5.S", ["c"])], [(1, "custom", "varchar")],
     [("prep_1", ⟨["custom"], [("5.S", ["v"])]⟩)], [(1, 10)], [],
     [(5, "5.S")], ["sample_id", "prep_template_id", "center_name"],
     ["Metagenomics"], 2⟩
    (PrepTemplate.delete
      ⟨[1], [(1, "5.S", ["c"])], [(1, "custom", "varchar")],
       [("prep_1", ⟨["custom"], [("5.S", ["v"])]⟩)], [(1, 10)], [],
       [(5, "5.S")], ["sample_id", "prep_template_id", "center_name"],
       ["Metagenomics"], 2⟩ 1).2 1 (by decide)

/-- C3 counterexample: the removal order the claim asserts (dynamic table,
column-registry rows, required-column rows, filepath links) is not the order
the source executes: both `PrepTemplate.delete` and the base
`MetadataTemplate.delete` remove the filepath links first and the dynamic
table only second. -/
theorem delete_order_differs_from_claim :
    prepDeleteStatements ≠ specClaimedDeleteOrder ∧
      metadataDeleteStatements ≠ specClaimedDeleteOrder ∧
      prepDeleteStatements.head? = some .filepathLinks ∧
      metadataDeleteStatements.head? = some .filepathLinks ∧
      specClaimedDeleteOrder.head? = some .dropDynamicTable := by
  decide

/-- C3 amended: for every existing prep template id with no linked
preprocessed data, `delete` succeeds and executes its removal statements in
the source order — filepath links, dynamic table, required-column rows
(`common_prep_info`), column-registry rows (`prep_columns`), root row — and
the resulting store has all five removals applied. -/
theorem prep_delete_removes_all (db : DB) (id : Nat)
    (hex : PrepTemplate.existsId db id = true)
    (hpp : ∀ fp, (id, fp) ∉ db.prepPreprocessedData) :
    PrepTemplate.delete db id =
        (none, prepDeleteStatements.foldl (applyDeleteStep id) db) ∧
      prepDeleteStatements =
        [.filepathLinks, .dropDynamicTable, .requiredColumnRows,
         .columnRegistryRows, .rootRow] ∧
      (PrepTemplate.delete db id).2 =
        { db with
            prepFilepaths := db.prepFilepaths.filter (fun p => p.1 ≠ id),
            dynamicTables :=
              db.dynamicTables.filter (fun p => p.1 ≠ prepTableName id),
            commonPrepInfo := db.commonPrepInfo.filter (fun r => r.1 ≠ id),
            prepColumns := db.prepColumns.filter (fun r => r.1 ≠ id),
            prepTemplateIds := db.prepTemplateIds.filter (fun i => i ≠ id) } := by
  have hany : db.prepPreprocessedData.any (fun p => p.1 = id) = false := by
    rw [Bool.eq_false_iff]
    intro h
    rcases List.any_eq_true.mp h with ⟨p, hp, he⟩
    simp only [decide_eq_true_eq] at he
    exact hpp p.2 (by rw [← he]; exact hp)
  have hdel : PrepTemplate.delete db id =
      (none, prepDeleteStatements.foldl (applyDeleteStep id) db) := by
    unfold PrepTemplate.delete
    rw [hex]
    simp [hany]
  refine ⟨hdel, rfl, ?_⟩
  rw [hdel, delete_foldl_eq]

/-- C3 witness: deleting prep template 1 from a concrete store succeeds and
yields the store with the five removals applied. -/
theorem prep_delete_removes_all_witness :
    PrepTemplate.delete
        ⟨[1], [(1, "5.S", ["c"])], [(1, "custom", "varchar")],
         [("prep_1", ⟨["custom"], [("5.S", ["v"])]⟩)], [(1, 10)], [],
         [(5, "5.S")], ["sample_id", "prep_template_id", "center_name"],
         ["Metagenomics"], 2⟩ 1 =
      (none, ⟨[], [], [], [], [], [], [(5, "5.S")],
              ["sample_id", "prep_template_id", "center_name"],
              ["Metagenomics"], 2⟩) := by
  have h := prep_delete_removes_all
    ⟨[1], [(1, "5.S", ["c"])], [(1, "custom", "varchar")],
     [("prep_1", ⟨["custom"], [("5.S", ["v"])]⟩)], [(1, 10)], [],
     [(5, "5.S")], ["sample_id", "prep_template_id", "center_name"],
     ["Metagenomics"], 2⟩ 1 (by decide) (fun fp => by simp)
  rw [h.1]
  decide

/-- C5 counterexample: invoking the executor's graph construction on a raw
data of unsupported filetype `SFF` raises the `NotImplementedError`, yet the
owning raw data's preprocessing status has already been changed from
`not_preprocessed` to `preprocessing` by the failed invocation — the fail-fast
happens after that state mutation, not before it. -/
theorem preprocess_unsupported_mutates_status :
    (StudyPreprocessor.constructJobGraph
        ⟨"not_preprocessed", [], [], []⟩ 1 "SFF" "slq_out").1 =
      some (.notImplemented 1 "SFF") ∧
    (StudyPreprocessor.constructJobGraph
        ⟨"not_preprocessed", [], [], []⟩ 1 "SFF" "slq_out").2.preprocessingStatus =
      "preprocessing" ∧
    (StudyPreprocessor.constructJobGraph
        ⟨"not_preprocessed", [], [], []⟩ 1 "SFF" "slq_out").2.preprocessingStatus ≠
      "not_preprocessed" := by
  refine ⟨rfl, rfl, ?_⟩
  decide

/-- C5 amended: for every raw-data filetype other than FASTQ and FASTA, the
graph construction fails with the `NotImplementedError` before adding any node
or edge to the job graph, but after the owning raw data's preprocessing status
has been set to `preprocessing`. -/
theorem preprocess_unsupported_filetype (st : PipelineState) (rid : Nat)
    (ft outDir : String) (h1 : ft ≠ "FASTQ") (h2 : ft ≠ "FASTA") :
    StudyPreprocessor.constructJobGraph st rid ft outDir =
      (some (.notImplemented rid ft),
       { st with preprocessingStatus := "preprocessing" }) := by
  unfold StudyPreprocessor.constructJobGraph
  rw [if_neg]
  intro h
  rcases h with h | h
  · exact h1 h
  · exact h2 h

/-- C5 amended witness: the concrete unsupported filetype `SFF` raises while
leaving the job graph empty and the status at `preprocessing`. -/
theorem preprocess_unsupported_filetype_witness :
    StudyPreprocessor.constructJobGraph
        ⟨"not_preprocessed", [], [], []⟩ 1 "SFF" "slq_out" =
      (some (.notImplemented 1 "SFF"), ⟨"preprocessing", [], [], []⟩) :=
  preprocess_unsupported_filetype ⟨"not_preprocessed", [], [], []⟩ 1 "SFF"
    "slq_out" (by decide) (by decide)

/-- C7: for every prep-template sample-name set that is not a subset of the
sample template's sample-name set, `create_qiime_mapping_file` fails with the
not-a-subset error naming exactly the set difference, and the store is
returned unchanged — in particular no mapping-file filepath link is added. -/
theorem qiime_mapping_not_a_subset (db : DB) (prepId : Nat)
    (ptNames stNames : Finset String) (fpId : Nat)
    (h : ¬ ptNames ⊆ stNames) :
    PrepTemplate.create_qiime_mapping_file db prepId ptNames stNames fpId =
        (some (.notASubset (ptNames \ stNames)), db) ∧
      (PrepTemplate.create_qiime_mapping_file db prepId ptNames stNames
        fpId).2.prepFilepaths = db.prepFilepaths := by
  have he : PrepTemplate.create_qiime_mapping_file db prepId ptNames stNames
      fpId = (some (.notASubset (ptNames \ stNames)), db) := by
    unfold PrepTemplate.create_qiime_mapping_file
    rw [if_pos h]
  exact ⟨he, by rw [he]⟩

/-- C7 witness: prep sample names 5.A, 5.B, 5.C against sample-template names
5.A, 5.B fail naming exactly 5.C, with the filepath links untouched. -/
theorem qiime_mapping_not_a_subset_witness :
    PrepTemplate.create_qiime_mapping_file
        ⟨[1], [], [], [], [(1, 10)], [], [], [], [], 2⟩ 1
        {"5.A", "5.B", "5.C"} {"5.A", "5.B"} 11 =
      (some (.notASubset {"5.C"}),
       ⟨[1], [], [], [], [(1, 10)], [], [], [], [], 2⟩) := by
  have h := qiime_mapping_not_a_subset
    ⟨[1], [], [], [], [(1, 10)], [], [], [], [], 2⟩ 1
    {"5.A", "5.B", "5.C"} {"5.A", "5.B"} 11 (by decide)
  rw [h.1]
  decide

/-- C10: the public `get` accessors are total: `MetadataTemplate.get` returns
the sample object exactly when the template contains the sample id and `none`
otherwise, and `BaseSample.get` returns the stored value exactly when the
sample's categories contain the (lowercased) requested category and `none`
otherwise; no call path raises. -/
theorem get_accessors_never_raise (db : DB) (id : Nat) (key : String)
    (tid : Nat) (sid cat : String) :
    (MetadataTemplate.get db id key =
        if MetadataTemplate.containsSample db id key then some ⟨key, id⟩
        else none) ∧
      (BaseSample.get db tid sid cat =
        if BaseSample.containsCategory db tid cat then
          some (dynTableCell db tid sid (lowerStr cat))
        else none) := by
  constructor
  · unfold MetadataTemplate.get MetadataTemplate.getitem
    by_cases h : MetadataTemplate.containsSample db id key = true
    · rw [if_pos h, if_pos h]
    · rw [Bool.not_eq_true] at h
      rw [h]
      simp
  · unfold BaseSample.get BaseSample.getitem BaseSample.containsCategory
    by_cases h : lowerStr cat ∈ BaseSample.categories db tid
    · rw [if_pos h, if_pos (by simpa using h)]
    · rw [if_neg h, if_neg (by simpa using h)]

/-- Under a valid (or absent) investigation type, `create` reduces to its
validated stages. -/
theorem create_eq_createValidated (db : DB) (md0 : DataFrame) (studyId : Nat)
    (dts : String) (it : Option String) (q : Option String)
    (hIT : ∀ t ∈ it, t ∈ db.ontologyTerms) :
    PrepTemplate.create db md0 studyId dts it q =
      PrepTemplate.createValidated db md0 studyId dts q := by
  cases it with
  | none => rfl
  | some t =>
    have ht : t ∈ db.ontologyTerms := hIT t rfl
    simp only [PrepTemplate.create]
    rw [if_pos ht]

/-- The checked metadata table keeps the prefixed index of the input. -/
theorem mdChecked_index (md0 : DataFrame) (studyId : Nat) (dts : String) :
    (PrepTemplate.mdChecked md0 studyId dts).index =
      md0.index.map (prefixSampleName studyId) := by
  unfold PrepTemplate.mdChecked PrepTemplate.checkTemplateSpecialColumns
  split <;> rfl

/-- The checked metadata table keeps the values of the input. -/
theorem mdChecked_data (md0 : DataFrame) (studyId : Nat) (dts : String) :
    (PrepTemplate.mdChecked md0 studyId dts).data = md0.data := by
  unfold PrepTemplate.mdChecked PrepTemplate.checkTemplateSpecialColumns
  split <;> rfl

/-- C1: for every prep-template bulk-load that passes validation but whose
atomic queue execution fails, `create` deletes the freshly inserted root row
as compensation (the registered ids are exactly those before the call), then
computes the set difference between the new template's (prefixed) sample ids
and the sample ids already registered for the owning study, raises the
orphan-samples `QiitaDBExecutionError` naming exactly that difference when it
is non-empty, and re-raises the original store error unchanged otherwise. -/
theorem create_rollback_diagnostics (db : DB) (md0 : DataFrame)
    (studyId : Nat) (dts : String) (it : Option String) (e : String)
    (hIT : ∀ t ∈ it, t ∈ db.ontologyTerms)
    (hids : get_invalid_sample_names md0.index = [])
    (hdup : (PrepTemplate.mdNormalized md0 studyId).columns.dedup.length =
      (PrepTemplate.mdNormalized md0 studyId).columns.length)
    (hmiss : PrepTemplate.missingSet db md0 studyId dts = ∅)
    (hfresh : db.nextPrepId ∉ db.prepTemplateIds) :
    PrepTemplate.create db md0 studyId dts it (some e) =
        (if PrepTemplate.unknownSamples (PrepTemplate.dbCompensated db) md0
            studyId dts ≠ ∅ then
          .err (.orphanSamples (PrepTemplate.unknownSamples
            (PrepTemplate.dbCompensated db) md0 studyId dts))
            (PrepTemplate.dbCompensated db)
        else .err (.dbError e) (PrepTemplate.dbCompensated db)) ∧
      (PrepTemplate.dbCompensated db).prepTemplateIds = db.prepTemplateIds ∧
      PrepTemplate.unknownSamples (PrepTemplate.dbCompensated db) md0 studyId
          dts =
        ((md0.index.map (prefixSampleName studyId)).toFinset).filter
          (fun s => s ∉ studySampleIds db studyId) := by
  refine ⟨?_, ?_, ?_⟩
  · rw [create_eq_createValidated db md0 studyId dts it (some e) hIT]
    unfold PrepTemplate.createValidated
    rw [if_neg (fun h => h hids), if_neg (fun h => h hdup),
      if_neg (fun h => h hmiss)]
  · unfold PrepTemplate.dbCompensated PrepTemplate.dbWithRootRow
    exact filter_append_singleton_ne db.prepTemplateIds db.nextPrepId hfresh
  · unfold PrepTemplate.unknownSamples
    rw [mdChecked_index]
    rfl

/-- C1 witness: with no samples registered for study 5 the failed queue
execution is rediagnosed as an orphan-samples error naming exactly 5.SKB1,
and the compensated store keeps only the pre-existing root rows. -/
theorem create_rollback_diagnostics_witness :
    PrepTemplate.create
        ⟨[1], [], [], [], [], [], [],
         ["sample_id", "prep_template_id", "center_name"],
         ["Metagenomics"], 2⟩
        ⟨["SKB1"], ["center_name", "custom"], [["cn", "cv"]]⟩ 5 "Metagenomic"
        none (some "unique constraint violated") =
      .err (.orphanSamples {"5.SKB1"})
        ⟨[1], [], [], [], [], [], [],
         ["sample_id", "prep_template_id", "center_name"],
         ["Metagenomics"], 3⟩ := by
  have h := create_rollback_diagnostics
    ⟨[1], [], [], [], [], [], [],
     ["sample_id", "prep_template_id", "center_name"],
     ["Metagenomics"], 2⟩
    ⟨["SKB1"], ["center_name", "custom"], [["cn", "cv"]]⟩ 5 "Metagenomic"
    none "unique constraint violated" (by simp) (by decide) (by decide)
    (by decide) (by decide)
  rw [h.1]
  decide

/-- C2: for every input metadata table that passes the sample-id,
investigation-type and duplicate-header checks but still lacks a required
column after renaming, `create` fails with the missing-columns
`QiitaDBColumnError` carrying exactly the missing set, the store is returned
unchanged (the failure precedes every write, root-row insert included), and
the dynamic table for the would-be id remains absent. -/
theorem create_missing_columns_no_write (db : DB) (md0 : DataFrame)
    (studyId : Nat) (dts : String) (it : Option String) (q : Option String)
    (hIT : ∀ t ∈ it, t ∈ db.ontologyTerms)
    (hids : get_invalid_sample_names md0.index = [])
    (hdup : (PrepTemplate.mdNormalized md0 studyId).columns.dedup.length =
      (PrepTemplate.mdNormalized md0 studyId).columns.length)
    (hmiss : PrepTemplate.missingSet db md0 studyId dts ≠ ∅)
    (hfresh : PrepTemplate.existsId db db.nextPrepId = false) :
    PrepTemplate.create db md0 studyId dts it q =
        .err (.missingColumns (PrepTemplate.missingSet db md0 studyId dts)) db ∧
      PrepTemplate.existsId db db.nextPrepId = false := by
  refine ⟨?_, hfresh⟩
  rw [create_eq_createValidated db md0 studyId dts it q hIT]
  unfold PrepTemplate.createValidated
  rw [if_neg (fun h => h hids), if_neg (fun h => h hdup), if_pos hmiss]

/-- C2 witness: a target-gene (16S) template lacking the barcode and primer
columns fails with the missing-columns error naming them, leaving the store
untouched and the dynamic table for the would-be id 2 absent. -/
theorem create_missing_columns_no_write_witness :
    PrepTemplate.create
        ⟨[1], [], [], [], [], [], [(5, "5.SKB1")],
         ["sample_id", "prep_template_id", "center_name"],
         ["Metagenomics"], 2⟩
        ⟨["SKB1"], ["center_name", "run_prefix", "library_construction_protocol",
          "experiment_design_description", "platform"],
         [["cn", "rp", "lcp", "edd", "pl"]]⟩ 5 "16S" none none =
      .err (.missingColumns {"barcodesequence", "linkerprimersequence"})
        ⟨[1], [], [], [], [], [], [(5, "5.SKB1")],
         ["sample_id", "prep_template_id", "center_name"],
         ["Metagenomics"], 2⟩ ∧
    PrepTemplate.existsId
        ⟨[1], [], [], [], [], [], [(5, "5.SKB1")],
         ["sample_id", "prep_template_id", "center_name"],
         ["Metagenomics"], 2⟩ 2 = false := by
  have h := create_missing_columns_no_write
    ⟨[1], [], [], [], [], [], [(5, "5.SKB1")],
     ["sample_id", "prep_template_id", "center_name"],
     ["Metagenomics"], 2⟩
    ⟨["SKB1"], ["center_name", "run_prefix", "library_construction_protocol",
      "experiment_design_description", "platform"],
     [["cn", "rp", "lcp", "edd", "pl"]]⟩ 5 "16S" none none (by simp)
    (by decide) (by decide) (by decide) (by decide)
  refine ⟨?_, h.2⟩
  rw [h.1]
  decide

/-- C6: for every input whose sample ids pass validation, a successful
bulk-load stores each sample id prefixed with the owning study id: the sample
ids of the newly inserted `common_prep_info` rows are exactly the prefixed
input ids.  The prefixing itself maps the raw id SKB1 under study 5 to 5.SKB1
and leaves the already-prefixed 5.SKB1 unchanged. -/
theorem create_stores_prefixed_ids (db : DB) (md0 : DataFrame)
    (studyId : Nat) (dts : String) (it : Option String)
    (hIT : ∀ t ∈ it, t ∈ db.ontologyTerms)
    (hids : get_invalid_sample_names md0.index = [])
    (hdup : (PrepTemplate.mdNormalized md0 studyId).columns.dedup.length =
      (PrepTemplate.mdNormalized md0 studyId).columns.length)
    (hmiss : PrepTemplate.missingSet db md0 studyId dts = ∅)
    (hlen : md0.index.length ≤ md0.data.length) :
    PrepTemplate.create db md0 studyId dts it none =
        .ok (PrepTemplate.createCommit (PrepTemplate.dbWithRootRow db)
          (PrepTemplate.mdChecked md0 studyId dts) db.nextPrepId)
          db.nextPrepId ∧
      (PrepTemplate.createCommit (PrepTemplate.dbWithRootRow db)
          (PrepTemplate.mdChecked md0 studyId dts)
          db.nextPrepId).commonPrepInfo.map (fun r => r.2.1) =
        db.commonPrepInfo.map (fun r => r.2.1) ++
          md0.index.map (prefixSampleName studyId) ∧
      prefixSampleName 5 "SKB1" = "5.SKB1" ∧
      prefixSampleName 5 "5.SKB1" = "5.SKB1" := by
  refine ⟨?_, ?_, by decide, by decide⟩
  · rw [create_eq_createValidated db md0 studyId dts it none hIT]
    unfold PrepTemplate.createValidated
    rw [if_neg (fun h => h hids), if_neg (fun h => h hdup),
      if_neg (fun h => h hmiss)]
  · unfold PrepTemplate.createCommit
    simp only [List.map_append, List.map_map]
    have h1 : ((PrepTemplate.mdChecked md0 studyId dts).index.zip
        (PrepTemplate.mdChecked md0 studyId dts).data).map Prod.fst =
        (PrepTemplate.mdChecked md0 studyId dts).index := by
      apply List.map_fst_zip
      rw [mdChecked_index, mdChecked_data, List.length_map]
      exact hlen
    have h2 : ((PrepTemplate.mdChecked md0 studyId dts).index.zip
          (PrepTemplate.mdChecked md0 studyId dts).data).map
          ((fun r => r.2.1) ∘ (fun r =>
            (db.nextPrepId, r.1, (dbRequiredCols (PrepTemplate.dbWithRootRow db)).map
              (fun c => DataFrame.cell (PrepTemplate.mdChecked md0 studyId dts) r.2 c)))) =
        ((PrepTemplate.mdChecked md0 studyId dts).index.zip
          (PrepTemplate.mdChecked md0 studyId dts).data).map Prod.fst := by
      apply List.map_congr_left
      intro r hr
      rfl
    rw [h2, h1, mdChecked_index]
    rfl

/-- C6 witness: a concrete successful bulk-load of raw id SKB1 under study 5
stores exactly the prefixed id 5.SKB1, and the prefixing function maps SKB1
to 5.SKB1 and 5.SKB1 to itself. -/
theorem create_stores_prefixed_ids_witness :
    (PrepTemplate.create
        ⟨[1], [], [], [], [], [], [(5, "5.SKB1")],
         ["sample_id", "prep_template_id", "center_name"],
         ["Metagenomics"], 2⟩
        ⟨["SKB1"], ["center_name", "custom"], [["cn", "cv"]]⟩ 5 "Metagenomic"
        none none =
      .ok (PrepTemplate.createCommit
        (PrepTemplate.dbWithRootRow
          ⟨[1], [], [], [], [], [], [(5, "5.SKB1")],
           ["sample_id", "prep_template_id", "center_name"],
           ["Metagenomics"], 2⟩)
        (PrepTemplate.mdChecked
          ⟨["SKB1"], ["center_name", "custom"], [["cn", "cv"]]⟩ 5 "Metagenomic")
        2) 2) ∧
    (PrepTemplate.createCommit
        (PrepTemplate.dbWithRootRow
          ⟨[1], [], [], [], [], [], [(5, "5.SKB1")],
           ["sample_id", "prep_template_id", "center_name"],
           ["Metagenomics"], 2⟩)
        (PrepTemplate.mdChecked
          ⟨["SKB1"], ["center_name", "custom"], [["cn", "cv"]]⟩ 5 "Metagenomic")
        2).commonPrepInfo.map (fun r => r.2.1) = ["5.SKB1"] ∧
    prefixSampleName 5 "SKB1" = "5.SKB1" ∧
    prefixSampleName 5 "5.SKB1" = "5.SKB1" := by
  have h := create_stores_prefixed_ids
    ⟨[1], [], [], [], [], [], [(5, "5.SKB1")],
     ["sample_id", "prep_template_id", "center_name"],
     ["Metagenomics"], 2⟩
    ⟨["SKB1"], ["center_name", "custom"], [["cn", "cv"]]⟩ 5 "Metagenomic"
    none (by simp) (by decide) (by decide) (by decide) (by decide)
  refine ⟨h.1, ?_, h.2.2.1, h.2.2.2⟩
  rw [h.2.1]
  decide

/-! Serialization round-trip lemmas for `to_file`. -/

theorem splitOnSep_ne_nil (sep : Char) (l : List Char) : splitOnSep sep l ≠ [] := by
  induction l with
  | nil => simp [splitOnSep]
  | cons c rest ih =>
    simp only [splitOnSep]
    cases h : splitOnSep sep rest with
    | nil => exact absurd h ih
    | cons g gs =>
      by_cases hc : c = sep <;> simp [hc]

theorem splitOnSep_of_not_mem (sep : Char) (l : List Char) (h : sep ∉ l) :
    splitOnSep sep l = [l] := by
  induction l with
  | nil => simp [splitOnSep]
  | cons c rest ih =>
    have hc : c ≠ sep := fun he => h (he ▸ List.mem_cons_self c rest)
    have hr : sep ∉ rest := fun hm => h (List.mem_cons_of_mem c hm)
    simp only [splitOnSep]
    rw [ih hr]
    simp [hc]

theorem splitOnSep_append_sep (sep : Char) (l rest : List Char) (h : sep ∉ l) :
    splitOnSep sep (l ++ sep :: rest) = l :: splitOnSep sep rest := by
  induction l with
  | nil =>
    simp only [List.nil_append, splitOnSep]
    cases hr : splitOnSep sep rest with
    | nil => exact absurd hr (splitOnSep_ne_nil sep rest)
    | cons g gs => simp
  | cons c l ih =>
    have hc : c ≠ sep := fun he => h (he ▸ List.mem_cons_self c l)
    have hl : sep ∉ l := fun hm => h (List.mem_cons_of_mem c hm)
    have hi := ih hl
    simp only [List.cons_append, splitOnSep, List.append_eq]
    rw [hi]
    simp [hc]

theorem splitOnSep_terminated (sep : Char) (lls : List (List Char))
    (h : ∀ l ∈ lls, sep ∉ l) :
    splitOnSep sep (lls.foldr (fun l acc => l ++ sep :: acc) []) =
      lls ++ [[]] := by
  induction lls with
  | nil => simp [splitOnSep]
  | cons l lls ih =>
    simp only [List.foldr_cons]
    rw [splitOnSep_append_sep sep l _ (h l (List.mem_cons_self l lls))]
    rw [ih (fun x hx => h x (List.mem_cons_of_mem l hx))]
    rfl

theorem mem_joinSep (sep : Char) (lls : List (List Char)) (c : Char)
    (h : c ∈ joinSep sep lls) : c = sep ∨ ∃ l ∈ lls, c ∈ l := by
  induction lls with
  | nil => simp [joinSep] at h
  | cons l lls ih =>
    cases lls with
    | nil =>
      simp only [joinSep] at h
      exact Or.inr ⟨l, List.mem_cons_self l [], h⟩
    | cons l2 ls =>
      simp only [joinSep] at h
      rcases List.mem_append.mp h with hl | hr
      · exact Or.inr ⟨l, List.mem_cons_self _ _, hl⟩
      · rcases List.mem_cons.mp hr with he | hm
        · exact Or.inl he
        · rcases ih hm with he | ⟨x, hx, hcx⟩
          · exact Or.inl he
          · exact Or.inr ⟨x, List.mem_cons_of_mem l hx, hcx⟩

theorem splitOnSep_joinSep (sep : Char) (lls : List (List Char))
    (hne : lls ≠ []) (h : ∀ l ∈ lls, sep ∉ l) :
    splitOnSep sep (joinSep sep lls) = lls := by
  induction lls with
  | nil => exact absurd rfl hne
  | cons l lls ih =>
    cases lls with
    | nil =>
      simp only [joinSep]
      exact splitOnSep_of_not_mem sep l (h l (List.mem_cons_self l []))
    | cons l2 ls =>
      simp only [joinSep]
      rw [splitOnSep_append_sep sep l _ (h l (List.mem_cons_self _ _))]
      have hx := ih (by simp) (fun x hx => h x (List.mem_cons_of_mem l hx))
      simp only [joinSep] at hx
      rw [hx]

theorem find_line (rows : List (String × List String))
    (f : String × List String → List String)
    (hf : ∀ r, (f r).headD "" = r.1)
    (hnd : (rows.map Prod.fst).Nodup) (sid : String) (vals : List String)
    (hin : (sid, vals) ∈ rows) :
    (rows.map f).find? (fun l => decide (l.headD "" = sid)) =
      some (f (sid, vals)) := by
  induction rows with
  | nil => simp at hin
  | cons r rest ih =>
    simp only [List.map_cons] at hnd ⊢
    by_cases hr : r.1 = sid
    · have hreq : r = (sid, vals) := by
        rcases List.mem_cons.mp hin with he | hm
        · exact he.symm
        · exfalso
          have hmem : sid ∈ rest.map Prod.fst :=
            List.mem_map.mpr ⟨(sid, vals), hm, rfl⟩
          have hnotin := (List.nodup_cons.mp hnd).1
          rw [hr] at hnotin
          exact hnotin hmem
      rw [List.find?_cons_of_pos _ (by simp only [hf r]; simp [hr]), hreq]
    · rw [List.find?_cons_of_neg _ (by simp only [hf r]; simp [hr])]
      apply ih (List.nodup_cons.mp hnd).2
      rcases List.mem_cons.mp hin with he | hm
      · exact absurd (congrArg Prod.fst he.symm) hr
      · exact hm

theorem lookup_of_mem_nodup (rows : List (String × List String))
    (hnd : (rows.map Prod.fst).Nodup) (sid : String) (vals : List String)
    (hin : (sid, vals) ∈ rows) :
    rows.lookup sid = some vals := by
  induction rows with
  | nil => simp at hin
  | cons r rest ih =>
    obtain ⟨k, v⟩ := r
    simp only [List.map_cons] at hnd
    by_cases hk : sid = k
    · have : (k, v) = (sid, vals) := by
        rcases List.mem_cons.mp hin with he | hm
        · exact he.symm
        · exfalso
          have hmem : sid ∈ rest.map Prod.fst :=
            List.mem_map.mpr ⟨(sid, vals), hm, rfl⟩
          have hnotin := (List.nodup_cons.mp hnd).1
          rw [← hk] at hnotin
          exact hnotin hmem
      have hbeq : (sid == k) = true := by simp [hk]
      simp only [List.lookup, hbeq]
      rw [(Prod.mk.injEq _ _ _ _ |>.mp this).2]
    · have hbeq : (sid == k) = false := by simp [hk]
      simp only [List.lookup, hbeq]
      apply ih (List.nodup_cons.mp hnd).2
      rcases List.mem_cons.mp hin with he | hm
      · exact absurd (congrArg Prod.fst he.symm) (fun hx => hk hx.symm)
      · exact hm

theorem parse_render (lines : List (List String))
    (hne : ∀ fs ∈ lines, fs ≠ [])
    (hcl : ∀ fs ∈ lines, ∀ f ∈ fs, sepFree f) :
    parseTemplateFile
        ⟨fileChars (lines.map (fun fs => joinSep '\t' (fs.map String.data)))⟩ =
      lines := by
  have hnl : ∀ l ∈ lines.map (fun fs => joinSep '\t' (fs.map String.data)),
      ('\n' : Char) ∉ l := by
    intro l hl hmem
    rcases List.mem_map.mp hl with ⟨fs, hfs, rfl⟩
    rcases mem_joinSep _ _ _ hmem with he | ⟨d, hd, hcd⟩
    · exact absurd he (by decide)
    · rcases List.mem_map.mp hd with ⟨f, hf, rfl⟩
      exact (hcl fs hfs f hf).2 hcd
  unfold parseTemplateFile fileChars
  rw [splitOnSep_terminated _ _ hnl, List.dropLast_concat, List.map_map]
  have hpt : ∀ fs ∈ lines,
      ((fun l => (splitOnSep '\t' l).map String.mk) ∘
        (fun fs => joinSep '\t' (fs.map String.data))) fs = fs := by
    intro fs hfs
    have hmapne : fs.map String.data ≠ [] := by
      intro hx
      exact hne fs hfs (List.map_eq_nil_iff.mp hx)
    have htab : ∀ d ∈ fs.map String.data, ('\t' : Char) ∉ d := by
      intro d hd hmem
      rcases List.mem_map.mp hd with ⟨f, hf, rfl⟩
      exact (hcl fs hfs f hf).1 hmem
    show ((splitOnSep '\t' (joinSep '\t' (fs.map String.data))).map String.mk) = fs
    rw [splitOnSep_joinSep _ _ hmapne htab, List.map_map]
    have : ∀ f ∈ fs, (String.mk ∘ String.data) f = id f := fun f _ => rfl
    rw [List.map_congr_left this, List.map_id]
  rw [List.map_congr_left hpt]
  exact List.map_id lines

theorem to_file_round_trip (t : DynTable)
    (hrows : t.rows ≠ [])
    (hnd : (t.rows.map Prod.fst).Nodup)
    (hlen : ∀ r ∈ t.rows, r.2.length = t.cols.length)
    (hcleanc : ∀ c ∈ t.cols, sepFree c)
    (hcleanr : ∀ r ∈ t.rows, sepFree r.1 ∧ ∀ v ∈ r.2, sepFree v) :
    parsedSampleIds (parseTemplateFile (MetadataTemplate.to_file t)) =
        (t.rows.map Prod.fst).toFinset ∧
      ∀ sid vals col, (sid, vals) ∈ t.rows → col ∈ t.cols →
        parsedValue (parseTemplateFile (MetadataTemplate.to_file t)) sid col =
            DynTable.cellValue t sid col ∧
          (DynTable.cellValue t sid col).isSome = true := by
  have hpermH : (t.cols.insertionSort strLe).Perm t.cols :=
    List.perm_insertionSort _ _
  have hpermR : (t.rows.insertionSort (fun a b => strLe a.1 b.1)).Perm t.rows :=
    List.perm_insertionSort _ _
  have hne : ∀ fs ∈ MetadataTemplate.toFileLines t, fs ≠ [] := by
    intro fs hfs
    unfold MetadataTemplate.toFileLines at hfs
    rcases List.mem_cons.mp hfs with he | hm
    · subst he; simp
    · rcases List.mem_map.mp hm with ⟨r, hr, rfl⟩; simp
  have hcl : ∀ fs ∈ MetadataTemplate.toFileLines t, ∀ f ∈ fs, sepFree f := by
    intro fs hfs f hf
    unfold MetadataTemplate.toFileLines at hfs
    rcases List.mem_cons.mp hfs with he | hm
    · subst he
      rcases List.mem_cons.mp hf with hf1 | hfh
      · subst hf1; exact ⟨by decide, by decide⟩
      · exact hcleanc f (hpermH.mem_iff.mp hfh)
    · rcases List.mem_map.mp hm with ⟨r, hr, rfl⟩
      have hrmem : r ∈ t.rows := hpermR.mem_iff.mp hr
      rcases List.mem_cons.mp hf with hf1 | hfv
      · subst hf1; exact (hcleanr r hrmem).1
      · rcases List.mem_map.mp hfv with ⟨h2, hh2, rfl⟩
        cases hg : r.2.get? (t.cols.indexOf h2) with
        | none => simp only [hg, Option.getD_none]; exact ⟨by decide, by decide⟩
        | some v =>
          simp only [hg, Option.getD_some]
          exact (hcleanr r hrmem).2 v (List.get?_mem hg)
  have hlines : parseTemplateFile (MetadataTemplate.to_file t) =
      MetadataTemplate.toFileLines t := by
    unfold MetadataTemplate.to_file
    exact parse_render _ hne hcl
  constructor
  · rw [hlines]
    unfold MetadataTemplate.toFileLines parsedSampleIds
    simp only [List.tail_cons, List.map_map]
    have hcmp : ∀ r ∈ t.rows.insertionSort (fun a b => strLe a.1 b.1),
        ((fun l => List.headD l "") ∘ (fun r =>
          r.1 :: (t.cols.insertionSort strLe).map
            (fun h => (r.2.get? (t.cols.indexOf h)).getD ""))) r = r.1 :=
      fun r _ => rfl
    rw [List.map_congr_left hcmp]
    exact List.toFinset_eq_of_perm _ _ (hpermR.map Prod.fst)
  · intro sid vals col hin hcol
    rw [hlines]
    have hndS : ((t.rows.insertionSort (fun a b => strLe a.1 b.1)).map
        Prod.fst).Nodup := ((hpermR.map Prod.fst).nodup_iff).mpr hnd
    have hfind := find_line (t.rows.insertionSort (fun a b => strLe a.1 b.1))
      (fun r => r.1 :: (t.cols.insertionSort strLe).map
        (fun h => (r.2.get? (t.cols.indexOf h)).getD ""))
      (fun r => rfl) hndS sid vals (hpermR.mem_iff.mpr hin)
    have hcolH : col ∈ t.cols.insertionSort strLe := hpermH.mem_iff.mpr hcol
    have hidx : t.cols.indexOf col < vals.length := by
      rw [hlen (sid, vals) hin]
      exact List.indexOf_lt_length.mpr hcol
    have hcell : DynTable.cellValue t sid col =
        some (vals.get ⟨t.cols.indexOf col, hidx⟩) := by
      unfold DynTable.cellValue
      rw [lookup_of_mem_nodup t.rows hnd sid vals hin]
      exact List.get?_eq_get hidx
    unfold MetadataTemplate.toFileLines parsedValue
    simp only [List.tail_cons, List.headD_cons]
    rw [hfind]
    simp only [Option.some_bind]
    rw [if_pos hcolH]
    simp only [List.tail_cons]
    rw [List.get?_map, List.indexOf_get? hcolH]
    rw [hcell]
    refine ⟨?_, rfl⟩
    simp only [Option.map_some']
    rw [List.get?_eq_get hidx]
    rfl

/-- C8 witness: a concrete two-sample, two-column table (columns and rows
deliberately unsorted) round-trips: the parsed backup file recovers the
sample-id set and the stored value of the (s1, b) cell. -/
theorem to_file_round_trip_witness :
    parsedSampleIds (parseTemplateFile (MetadataTemplate.to_file
        ⟨["b", "a"], [("s2", ["x2", "y2"]), ("s1", ["x1", "y1"])]⟩)) =
      {"s2", "s1"} ∧
    parsedValue (parseTemplateFile (MetadataTemplate.to_file
        ⟨["b", "a"], [("s2", ["x2", "y2"]), ("s1", ["x1", "y1"])]⟩)) "s1" "b" =
      some "x1" := by
  have h := to_file_round_trip
    ⟨["b", "a"], [("s2", ["x2", "y2"]), ("s1", ["x1", "y1"])]⟩
    (by decide) (by decide) (by decide) (by decide) (by decide)
  constructor
  · rw [h.1]
    decide
  · have h2 := (h.2 "s1" ["x1", "y1"] "b" (by decide) (by decide)).1
    rw [h2]
    decide
